import Mathlib

/-!
Verification development for the DiplomacyArena repository.

The development shallowly embeds the alternating-turn game engine
(negotiationarena/alternating_game.py), the SimpleGame message interface
(games/simple_game/interface.py), the ChatGPT agent shim
(negotiationarena/agents/chatgpt.py) and the memory retrieval subsystem
(memory_system/core/retriever.py, memory_system/core/vector_store.py).

Helper modules of the negotiationarena package that are not part of the
repository checkout (constants.py, utils.get_tag_contents, parser.parse_trade,
game_objects.resource.Resources) are modelled from the specification; each
such definition carries a doc comment saying so.

Python floats are modelled as rationals, Python lists as Lean lists, Python
dicts with a fixed key set as structures, and the stable reverse sort used by
list.sort(key=..., reverse=True) as the stable List.insertionSort with the
reversed relation.
-/

namespace DiplomacyArena

/-! ### Character-list string helpers -/

/-- Whitespace test used by the modelled str.strip. -/
def isWsChar (c : Char) : Bool :=
  c == ' ' || c == '\n' || c == '\t' || c == '\r'

/-- Strip leading and trailing whitespace from a character list. -/
def trimChars (l : List Char) : List Char :=
  ((l.dropWhile isWsChar).reverse.dropWhile isWsChar).reverse

/-- Index of the first occurrence of pattern within a character list. -/
def findSub (pat : List Char) : List Char → Option Nat
  | [] => if pat.isPrefixOf ([] : List Char) then some 0 else none
  | c :: rest =>
    if pat.isPrefixOf (c :: rest) then some 0
    else (findSub pat rest).map (· + 1)

/-- Substring test on strings (the Python in operator on str). -/
def occursIn (needle hay : String) : Bool :=
  (findSub needle.data hay.data).isSome

/-- Split a character list at every occurrence of a separator character. -/
def splitOnChar (c : Char) : List Char → List (List Char)
  | [] => [[]]
  | x :: xs =>
    let rest := splitOnChar c xs
    if x == c then [] :: rest
    else
      match rest with
      | [] => [[x]]
      | r :: rs => (x :: r) :: rs

/-- Split a character list at the first occurrence of a separator list. -/
def splitOnce (sep s : List Char) : Option (List Char × List Char) :=
  (findSub sep s).map (fun i => (s.take i, s.drop (i + sep.length)))

/-- Interpret a character list as a base-ten natural number. -/
def digitsToNat (l : List Char) : Option Nat :=
  if l.isEmpty then none
  else
    l.foldl
      (fun acc c =>
        match acc with
        | Option.none => none
        | Option.some n => if c.isDigit then some (n * 10 + (c.toNat - 48)) else none)
      (some 0)

/-- Interpret a character list as a base-ten integer with optional sign. -/
def parseInt : List Char → Option Int
  | '-' :: rest => (digitsToNat rest).map (fun n => -(n : Int))
  | l => (digitsToNat l).map (fun n => (n : Int))

/-! ### Tag constants

Modelled from the spec: negotiationarena/constants.py is not part of the
checkout.  The tag names are the fixed XML-like wire-format tags of section 6
of the spec; their values are witnessed throughout the in-repo prompt text
(for example games/simple_game/interface.py, test/cultural_agent_trading_test.py
and agents/chatgpt.py). -/

def MESSAGE_TAG : String := "message"
def PLAYER_ANSWER_TAG : String := "player answer"
def PROPOSED_TRADE_TAG : String := "newly proposed trade"
def MY_NAME_TAG : String := "my name"
def RESOURCES_TAG : String := "my resources"
def REASONING_TAG : String := "reason"
def ACCEPTING_TAG : String := "ACCEPT"
def OTHER_PLAYER_MESSAGE : String := "other player message"
def OTHER_PLAYER_ANSWER : String := "other player answer"
def OTHER_PLAYER_PROPOSED_TRADE : String := "other player proposed trade"
def AGENT_ONE : String := "RED"
def AGENT_TWO : String := "BLUE"

/-- Modelled from the spec: utils.get_tag_contents is not part of the
checkout.  Section 4.1: parsing extracts each expected tag from free text by
locating a designated open/close delimiter pair; a missing tag resolves to a
default, here the empty string, so that the parse-level falsy checks fire. -/
def get_tag_contents (response tag : String) : String :=
  let openTag := ("<" ++ tag ++ ">").data
  let closeTag := ("</" ++ tag ++ ">").data
  match findSub openTag response.data with
  | Option.none => ""
  | Option.some i =>
    let rest := response.data.drop (i + openTag.length)
    match findSub closeTag rest with
    | Option.none => ""
    | Option.some j => String.mk (trimChars (rest.take j))

/-! ### Resources and trades -/

/-- Resources: a mapping from resource name to quantity (spec section 3). -/
structure Resources where
  amounts : List (String × Int)
deriving DecidableEq, Repr

/-- Parse a single name-quantity pair such as Dollars: 100. -/
def parseResourceItem (l : List Char) : Option (String × Int) :=
  match splitOnChar ':' l with
  | [name, amt] =>
    (parseInt (trimChars amt)).map (fun n => (String.mk (trimChars name), n))
  | _ => none

/-- Modelled from the spec: game_objects.resource.Resources.from_string is not
part of the checkout.  It parses a comma-separated list of name: quantity
pairs; a malformed or empty string fails (the caller catches the failure and
substitutes an empty Resources). -/
def Resources.from_string (s : String) : Option Resources :=
  let t := trimChars s.data
  if t.isEmpty then none
  else
    let items := (splitOnChar ',' t).map (fun p => parseResourceItem (trimChars p))
    if items.all Option.isSome then some ⟨items.filterMap id⟩ else none

/-- Render a resource mapping back to name: quantity text. -/
def Resources.render (r : List (String × Int)) : String :=
  String.intercalate ", " (r.map (fun p => p.1 ++ ": " ++ toString p.2))

/-- A trade: each side names a player and the resources that player gives. -/
structure Trade where
  sides : List (String × List (String × Int))
deriving DecidableEq, Repr

/-- Parse one trade side of the form Player NAME Gives RES: AMT, RES: AMT. -/
def parseTradeSide (l : List Char) : Option (String × List (String × Int)) :=
  match splitOnce " Gives ".data l with
  | Option.none => none
  | Option.some (playerPart, resPart) =>
    if "Player ".data.isPrefixOf playerPart then
      (Resources.from_string (String.mk resPart)).map
        (fun r => (String.mk (playerPart.drop 7), r.amounts))
    else none

/-- Parse a full trade, the sides separated by a vertical bar. -/
def Trade.from_string (s : String) : Option Trade :=
  let parts := (splitOnChar '|' s.data).map (fun p => parseTradeSide (trimChars p))
  if !parts.isEmpty && parts.all Option.isSome then some ⟨parts.filterMap id⟩
  else none

/-- Render a trade back to its wire format. -/
def Trade.render (t : Trade) : String :=
  String.intercalate " | "
    (t.sides.map (fun s => "Player " ++ s.1 ++ " Gives " ++ Resources.render s.2))

/-- Modelled from the spec: parser.ExchangeGameDefaultParser.parse_trade is not
part of the checkout.  Section 4.1: a trade field containing the sentinel NONE
parses to no trade rather than to a literal resource named NONE, and a missing
or unparseable trade also resolves to the no-trade default (the caller catches
parse failures). -/
def parse_trade (response tag : String) : Option Trade :=
  let contents := get_tag_contents response tag
  if contents = "NONE" || contents = "" then none
  else Trade.from_string contents

/-! ### SimpleGame message interface (games/simple_game/interface.py) -/

/-- Value stored under the proposed-trade key of the public group: either the
literal string NONE (the no-trade sentinel the parser stores) or a trade. -/
inductive TradeField where
  | sentinel
  | trade (t : Trade)
deriving DecidableEq, Repr

/-- String rendering of the proposed-trade field (Python str). -/
def TradeField.render : TradeField → String
  | TradeField.sentinel => "NONE"
  | TradeField.trade t => t.render

/-- The public field group of a parsed SimpleGame message: the keys the parser
stores with add_public. -/
structure PublicFields where
  message : String
  answer : String
  trade : TradeField
deriving DecidableEq, Repr

/-- The secret field group: the keys the parser stores with add_secret. -/
structure SecretFields where
  resources : Resources
  my_name : String
  reasoning : String
deriving DecidableEq, Repr

/-- A parsed SimpleGame agent message: two disjoint field groups. -/
structure SimpleGameAgentMessage where
  public : PublicFields
  secret : SecretFields
deriving DecidableEq, Repr

/-- SimpleGameAgentMessage.message_to_other_player from
games/simple_game/interface.py lines 12-21: renders the three public fields
into the opponent-visible text. -/
def message_to_other_player (ms : SimpleGameAgentMessage) : String :=
  "<" ++ OTHER_PLAYER_MESSAGE ++ "> " ++ ms.public.message ++ " </" ++ OTHER_PLAYER_MESSAGE ++ ">\n" ++
  "<" ++ OTHER_PLAYER_ANSWER ++ "> " ++ ms.public.answer ++ " </" ++ OTHER_PLAYER_ANSWER ++ ">\n" ++
  "<" ++ OTHER_PLAYER_PROPOSED_TRADE ++ "> " ++ ms.public.trade.render ++ " </" ++ OTHER_PLAYER_PROPOSED_TRADE ++ ">\n"

/-- SimpleGameDefaultParser.parse from games/simple_game/interface.py lines
67-97.  A failing Resources.from_string is caught and replaced by the empty
Resources; a failing or empty parse_trade yields the NONE sentinel; a falsy
answer is replaced by NONE.  The function is total: it never raises. -/
def SimpleGameDefaultParser.parse (response : String) : SimpleGameAgentMessage :=
  let resources :=
    (Resources.from_string (get_tag_contents response RESOURCES_TAG)).getD ⟨[]⟩
  let answer := get_tag_contents response PLAYER_ANSWER_TAG
  let reasoning := get_tag_contents response REASONING_TAG
  let message := get_tag_contents response MESSAGE_TAG
  let my_name := get_tag_contents response MY_NAME_TAG
  let trade := parse_trade response PROPOSED_TRADE_TAG
  { public :=
      { message := message
        answer := if answer = "" then "NONE" else answer
        trade :=
          match trade with
          | Option.some t => TradeField.trade t
          | Option.none => TradeField.sentinel }
    secret :=
      { resources := resources
        my_name := my_name
        reasoning := reasoning } }

/-! ### Alternating game engine (negotiationarena/alternating_game.py) -/

/-- One appended game-state record, as written by write_game_state (lines
76-84).  The player_state snapshot list is omitted: no claim depends on it. -/
structure GameDatum where
  current_iteration : Nat
  turn : Nat
  player_public_answer_string : String
  player_public_info_dict : PublicFields
  player_private_info_dict : SecretFields
  player_complete_answer : String
deriving DecidableEq, Repr

/-- AlternatingGame.write_game_state (lines 69-86), parameterised by the game
interface parse function, which may raise (modelled as Except).  The result
triple is the new game_state list, the propagated exception if any, and the
lines printed to stdout. -/
def write_game_state (parse_fn : String → Except String SimpleGameAgentMessage)
    (current_iteration turn : Nat) (game_state : List GameDatum)
    (response : String) : List GameDatum × Option String × List String :=
  match parse_fn response with
  | Except.error e => (game_state, some e, ["response : " ++ response])
  | Except.ok agent_message =>
    (game_state ++
      [{ current_iteration := current_iteration
         turn := turn
         player_public_answer_string := message_to_other_player agent_message
         player_public_info_dict := agent_message.public
         player_private_info_dict := agent_message.secret
         player_complete_answer := response }],
     none, [])

/-- AlternatingGameEndsOnTag.game_over (lines 228-235): the game is over when
the last entry's player-answer field equals the end tag or the last entry's
iteration equals the configured maximum. -/
def game_over (end_tag : String) (iterations : Nat)
    (last_answer : String) (last_iteration : Nat) : Bool :=
  last_answer == end_tag || last_iteration == iterations

/-- The loop of AlternatingGame.run (lines 139-160) specialised to
AlternatingGameEndsOnTag, abstracted over the parsed player-answer produced at
each iteration.  Iteration i appends an entry whose answer is answers i and
whose iteration index is i, then checks game_over; the result is the iteration
at which after_game_ends ran, or none when the loop exhausted the range
without game_over ever returning true. -/
def runFrom (end_tag : String) (answers : Nat → String)
    (iterations : Nat) (i : Nat) : Option Nat :=
  if h1 : i ≤ iterations then
    if h2 : game_over end_tag iterations (answers i) i = true then some i
    else runFrom end_tag answers iterations (i + 1)
  else none
termination_by iterations - i
decreasing_by
  simp only [game_over, Bool.or_eq_true, beq_iff_eq] at h2
  rcases not_or.mp h2 with ⟨-, h3⟩
  omega

/-- AlternatingGame.run for a fresh AlternatingGameEndsOnTag game: the loop
starts at current_iteration = 1 (constructor, line 26). -/
def run (end_tag : String) (answers : Nat → String) (iterations : Nat) :
    Option Nat :=
  runFrom end_tag answers iterations 1

/-- Value stored in an entry's public-info dict: a string or a trade object.
A string is falsy exactly when empty; an object is always truthy. -/
inductive DictVal where
  | str (s : String)
  | obj (t : Trade)
deriving DecidableEq, Repr

/-- Python truthiness of a public-info dict value. -/
def DictVal.truthy : DictVal → Bool
  | DictVal.str s => s ≠ ""
  | DictVal.obj _ => true

/-- Python str of a public-info dict value. -/
def DictVal.toStr : DictVal → String
  | DictVal.str s => s
  | DictVal.obj t => t.render

/-- The slice of an entry that read_iteration_message consults: the values
found under the three public-info keys (each defaulting as dict.get does). -/
structure PublicInfoEntry where
  message : String
  proposed_trade : DictVal
  player_answer : String
deriving DecidableEq, Repr

/-- Return type of read_iteration_message: the empty dict or a string. -/
inductive Observation where
  | emptyDict
  | text (s : String)
deriving DecidableEq, Repr

/-- AlternatingGame.read_iteration_message (lines 37-67). -/
def read_iteration_message (game_state : List PublicInfoEntry)
    (iteration : Int) : Observation :=
  if iteration < 0 || iteration ≥ (game_state.length : Int) then
    Observation.emptyDict
  else
    let datum := game_state.getD iteration.toNat ⟨"", DictVal.str "", ""⟩
    let message := datum.message
    let proposed_trade := datum.proposed_trade
    let player_answer := datum.player_answer
    if message = "" ∧ proposed_trade.truthy = false then Observation.emptyDict
    else
      let observation_parts :=
        (if message ≠ "" then ["Opponent says: " ++ message] else []) ++
        (if proposed_trade.truthy = true ∧ proposed_trade.toStr ≠ "NONE" then
          ["Opponent's proposal: " ++ proposed_trade.toStr] else []) ++
        (if player_answer ≠ "" ∧ player_answer ≠ "NONE" then
          ["Opponent's answer: " ++ player_answer] else [])
      if observation_parts.isEmpty then Observation.emptyDict
      else Observation.text (String.intercalate "\n" observation_parts)

/-- The filtered observation parts of an entry, as the amended claim for
read_iteration_message describes them: the public message when non-empty, the
proposed trade when truthy and different from the NONE sentinel, the player
answer when non-empty and different from NONE. -/
def obsParts (d : PublicInfoEntry) : List String :=
  (if d.message ≠ "" then ["Opponent says: " ++ d.message] else []) ++
  (if d.proposed_trade.truthy = true ∧ d.proposed_trade.toStr ≠ "NONE" then
    ["Opponent's proposal: " ++ d.proposed_trade.toStr] else []) ++
  (if d.player_answer ≠ "" ∧ d.player_answer ≠ "NONE" then
    ["Opponent's answer: " ++ d.player_answer] else [])

/-! ### ChatGPT agent shim (negotiationarena/agents/chatgpt.py) -/

/-- Mutable state of a ChatGPTAgent that step touches: the agent name, the
conversation list of role-content pairs, and the turn counter. -/
structure ChatAgentState where
  agent_name : String
  conversation : List (String × String)
  turn_count : Nat
deriving DecidableEq, Repr

/-- The turn-context block that step builds for second-player agents
(chatgpt.py lines 150-184).  The regex search for an offered amount,
re.search applied to the pattern Player RED Gives Dollars: number, is
abstracted as the findOffer parameter.  The two braced placeholders in the
final-turn block reproduce a plain (non-formatted) Python string of the
source, so they appear literally. -/
def turn_context (findOffer : String → Option Nat) (turn_count : Nat)
    (obs_str : String) : String :=
  let my_turn_number : Nat := (turn_count + 1) / 2
  let base :=
    "\n\n=== TURN " ++ toString my_turn_number ++ "/3 (Exchange " ++
      toString turn_count ++ "/6) ===\n"
  let mid :=
    match findOffer obs_str with
    | Option.none => ""
    | Option.some offer_amount =>
      let offers :=
        "RED offers: $" ++ toString offer_amount ++ "\n" ++
        "You get: $" ++ toString offer_amount ++ " if you accept\n" ++
        "RED keeps: $" ++ toString ((100 : Int) - (offer_amount : Int)) ++ "\n\n"
      let tail :=
        if turn_count ≥ 5 then
          "🚨🚨🚨 FINAL TURN - CRITICAL DECISION 🚨🚨🚨\n" ++
          "This is exchange 6 - LAST exchange of the game\n" ++
          "If you counter-propose: GAME ENDS, both get $0\n" ++
          "If you accept: you get $\x7boffer_amount\x7d, RED gets $\x7b100 - offer_amount\x7d\n\n" ++
          "CALCULATION:\n" ++
          "Option A: ACCEPT → you get $" ++ toString offer_amount ++ "\n" ++
          "Option B: COUNTER → you get $0 (game ends)\n\n" ++
          (if offer_amount > 0 then
            "Since $" ++ toString offer_amount ++ " > $0, OPTIMAL CHOICE: ACCEPT\n\n" ++
            "OUTPUT:\n" ++
            "<player answer> ACCEPT </player answer>\n" ++
            "<newly proposed trade> NONE </newly proposed trade>\n"
          else
            "Since $0 = $0, either choice gives $0\n")
        else
          "Turns remaining after this: " ++
            toString ((3 : Int) - (my_turn_number : Int)) ++ "\n" ++
          "Your decision: ACCEPT or COUNTER?\n"
      offers ++ tail
  base ++ mid ++ "==================\n"

/-- ChatGPTAgent.step (chatgpt.py lines 144-190), abstracted over the model
call (chatModel, the blocking chat completion on the current conversation)
and the offer-extraction regex (findOffer).  Returns the updated agent state
and the returned response text. -/
def ChatGPTAgent.step (chatModel : List (String × String) → String)
    (findOffer : String → Option Nat) (a : ChatAgentState)
    (observation : String) : ChatAgentState × String :=
  let turn_count := a.turn_count + 1
  let obs :=
    if occursIn AGENT_TWO a.agent_name then
      observation ++ turn_context findOffer turn_count observation
    else observation
  let conv_with_user := a.conversation ++ [("user", obs)]
  let response := chatModel conv_with_user
  let conv_with_reply := conv_with_user ++ [("assistant", response)]
  (⟨a.agent_name, conv_with_reply, turn_count⟩, response)

/-! ### Memory subsystem (memory_system/core) -/

/-- A stored negotiation memory: the metadata fields that storage and
retrieval consult.  The embedding vector itself is opaque (spec section 3):
similarity is abstracted as a score function on memories. -/
structure Mem where
  memory_id : Nat
  session_id : String
  turn_id : Nat
  timestamp : Nat
  speaker : String
  message_type : String
  importance_score : ℚ
  is_critical : Bool
deriving DecidableEq, Repr

/-- The backing collection: stored items in backend order. -/
structure Store where
  items : List Mem
deriving DecidableEq, Repr

/-- Session filter of a Chroma where-clause. -/
def matchesSession (session_id : Option String) (m : Mem) : Bool :=
  match session_id with
  | Option.some s => m.session_id == s
  | Option.none => true

/-- ChromaMemoryStore.retrieve_by_similarity (vector_store.py lines 127-152).
The collection query is modelled as: filter, order by descending similarity
to the query embedding (the sim parameter), return at most n_results. -/
def retrieve_by_similarity (store : Store) (sim : Mem → ℚ) (k : Nat)
    (sessionFilter : Option String) : List Mem :=
  let collection_count := store.items.length
  if collection_count = 0 then []
  else
    let n_results := min k collection_count
    if n_results = 0 then []
    else
      (List.insertionSort (fun a b : Mem => sim b ≤ sim a)
        (store.items.filter (matchesSession sessionFilter))).take n_results

/-- ChromaMemoryStore.retrieve_by_session (vector_store.py lines 154-168):
get with optional limit, then sort ascending by turn id. -/
def retrieve_by_session (store : Store) (session_id : String)
    (limit : Option Nat) : List Mem :=
  let results :=
    match limit with
    | Option.some l => (store.items.filter (fun m => m.session_id == session_id)).take l
    | Option.none => store.items.filter (fun m => m.session_id == session_id)
  List.insertionSort (fun a b : Mem => a.turn_id ≤ b.turn_id) results

/-- ChromaMemoryStore.retrieve_recent (vector_store.py lines 170-185):
get, sort descending by timestamp, take n. -/
def retrieve_recent (store : Store) (n : Nat) (session_id : Option String) :
    List Mem :=
  (List.insertionSort (fun a b : Mem => b.timestamp ≤ a.timestamp)
    (store.items.filter (matchesSession session_id))).take n

/-- ChromaMemoryStore.retrieve_by_type (vector_store.py lines 187-210). -/
def retrieve_by_type (store : Store) (message_type : String)
    (session_id : Option String) (limit : Option Nat) : List Mem :=
  let results :=
    store.items.filter
      (fun m => m.message_type == message_type && matchesSession session_id m)
  match limit with
  | Option.some l => results.take l
  | Option.none => results

/-- The statistics record returned by get_stats for a session. -/
structure SessionStats where
  session_id : String
  total_memories : Nat
  unique_speakers : Nat
  message_types : List (String × Nat)
deriving DecidableEq, Repr

/-- Increment the count stored under a key of an association list. -/
def bumpCount (key : String) : List (String × Nat) → List (String × Nat)
  | [] => [(key, 1)]
  | (k, n) :: rest =>
    if k == key then (k, n + 1) :: rest else (k, n) :: bumpCount key rest

/-- The per-type tally loop of get_stats. -/
def typeCounts (ms : List Mem) : List (String × Nat) :=
  ms.foldl (fun acc m => bumpCount m.message_type acc) []

/-- ChromaMemoryStore.get_stats, session branch (vector_store.py lines
255-281).  The no-session branch reports collection-wide totals and is not
needed by any claim. -/
def get_stats (store : Store) (session_id : String) : SessionStats :=
  let results := store.items.filter (fun m => m.session_id == session_id)
  let count := results.length
  if count = 0 then
    { session_id := session_id
      total_memories := 0
      unique_speakers := 0
      message_types := [] }
  else
    { session_id := session_id
      total_memories := count
      unique_speakers := (results.map (fun m => m.speaker)).dedup.length
      message_types := typeCounts results }

/-! ### Memory retriever (memory_system/core/retriever.py) -/

/-- MemoryRetriever._semantic_retrieval (lines 73-88): embed the query and
query the store within the session.  The query embedding is abstracted into
the sim score function. -/
def semantic_retrieval (store : Store) (sim : Mem → ℚ) (session_id : String)
    (k : Nat) : List Mem :=
  retrieve_by_similarity store sim k (some session_id)

/-- MemoryRetriever._recency_retrieval (lines 90-96). -/
def recency_retrieval (store : Store) (session_id : String) (k : Nat) :
    List Mem :=
  retrieve_recent store k (some session_id)

/-- Deduplication by memory id keeping first occurrences, in insertion order:
the all_candidates dict of _hybrid_retrieval (lines 128-131). -/
def dedupById : List Mem → List Mem
  | [] => []
  | m :: rest =>
    m :: dedupById (rest.filter (fun x => x.memory_id ≠ m.memory_id))
termination_by l => l.length
decreasing_by
  exact Nat.lt_succ_of_le (List.length_filter_le _ _)

/-- Maximum turn id over a candidate list (Python max over the values). -/
def maxTurnOf (l : List Mem) : Nat :=
  l.foldl (fun acc m => max acc m.turn_id) 0

/-- The combined score of one candidate in _hybrid_retrieval (lines 141-158):
recency score from the turn id, semantic score from the rank in the semantic
results (rank len when absent, denominator floored to 1), importance boost
and critical boost. -/
def hybridScore (semantic_results : List Mem) (max_turn : Nat)
    (recency_weight similarity_weight : ℚ) (m : Mem) : ℚ :=
  let recency_score : ℚ := (m.turn_id : ℚ) / (max_turn : ℚ)
  let semantic_rank : Nat :=
    semantic_results.findIdx (fun x => x.memory_id == m.memory_id)
  let semantic_score : ℚ :=
    1 - ((semantic_rank : ℚ) / ((max semantic_results.length 1 : Nat) : ℚ))
  let importance_boost : ℚ := m.importance_score * (1 / 10)
  let critical_boost : ℚ := if m.is_critical then 1 / 10 else 0
  recency_weight * recency_score + similarity_weight * semantic_score +
    importance_boost + critical_boost

/-- MemoryRetriever._hybrid_retrieval (retriever.py lines 98-163). -/
def hybrid_retrieval (store : Store) (sim : Mem → ℚ) (session_id : String)
    (k : Nat) (recency_weight similarity_weight : ℚ) : List Mem :=
  let all_memories := retrieve_by_session store session_id none
  if all_memories.isEmpty then []
  else
    let candidate_k := min (k * 3) 50
    let semantic_results := semantic_retrieval store sim session_id candidate_k
    let recent_results := recency_retrieval store session_id candidate_k
    if semantic_results.isEmpty && recent_results.isEmpty then []
    else
      let all_candidates := dedupById (semantic_results ++ recent_results)
      if all_candidates.isEmpty then []
      else
        let max_turn := max (maxTurnOf all_candidates) 1
        let scored_memories :=
          all_candidates.map
            (fun m =>
              (hybridScore semantic_results max_turn recency_weight
                similarity_weight m, m))
        let sorted :=
          List.insertionSort (fun a b : ℚ × Mem => b.1 ≤ a.1) scored_memories
        (sorted.take k).map (fun p => p.2)

/-- The hybrid retrieval algorithm exactly as the claim states it: up to 3k
(capped at 50) candidates from semantic and recency retrieval, deduplicated
by memory id, scored as recency_weight * (turn_id / max_turn_id) +
similarity_weight * (1 - semantic_rank / len(semantic_results)) +
0.1 * importance_score + 0.1 * is_critical with max_turn_id floored to 1,
top k by score in descending order. -/
def hybrid_retrieval_claim (store : Store) (sim : Mem → ℚ)
    (session_id : String) (k : Nat)
    (recency_weight similarity_weight : ℚ) : List Mem :=
  let candidate_cap := min (k * 3) 50
  let semantic_results := semantic_retrieval store sim session_id candidate_cap
  let recent_results := recency_retrieval store session_id candidate_cap
  let candidates := dedupById (semantic_results ++ recent_results)
  let max_turn_id := max (maxTurnOf candidates) 1
  let score : Mem → ℚ := fun m =>
    recency_weight * ((m.turn_id : ℚ) / (max_turn_id : ℚ)) +
    similarity_weight *
      (1 - ((semantic_results.findIdx (fun x => x.memory_id == m.memory_id) : ℚ) /
        (semantic_results.length : ℚ))) +
    (1 / 10) * m.importance_score +
    (1 / 10) * (if m.is_critical then 1 else 0)
  ((List.insertionSort (fun a b : ℚ × Mem => b.1 ≤ a.1)
      (candidates.map (fun m => (score m, m)))).take k).map (fun p => p.2)

/-- MemoryRetriever._critical_retrieval (retriever.py lines 165-186). -/
def critical_retrieval (store : Store) (session_id : String) (k : Nat) :
    List Mem :=
  let all_memories := retrieve_by_session store session_id none
  if all_memories.isEmpty then []
  else
    let critical := all_memories.filter (fun m => m.is_critical)
    let result :=
      if critical.length < k then
        let important :=
          all_memories.filter
            (fun m => !m.is_critical && decide ((7 / 10 : ℚ) < m.importance_score))
        let important_sorted :=
          List.insertionSort
            (fun a b : Mem => b.importance_score ≤ a.importance_score) important
        critical ++ important_sorted.take (k - critical.length)
      else critical
    result.take k

/-- Critical retrieval as amended: criticals first, then, when fewer than k
criticals exist, the highest-importance non-critical entries among those with
importance score above 0.7, sorted by importance descending, until k entries
are returned or those entries are exhausted. -/
def critical_retrieval_amended (store : Store) (session_id : String)
    (k : Nat) : List Mem :=
  let session_memories := retrieve_by_session store session_id none
  let criticals := session_memories.filter (fun m => m.is_critical)
  let backfill :=
    if criticals.length < k then
      (List.insertionSort
        (fun a b : Mem => b.importance_score ≤ a.importance_score)
        (session_memories.filter
          (fun m => !m.is_critical && decide ((7 / 10 : ℚ) < m.importance_score)))).take
        (k - criticals.length)
    else []
  (criticals ++ backfill).take k

/-! ## Helper lemmas -/

/-- A pattern is found inside any list that ends with it. -/
theorem findSub_append_self (pat pre : List Char) :
    (findSub pat (pre ++ pat)).isSome = true := by
  induction pre with
  | nil =>
    simp only [List.nil_append]
    cases pat with
    | nil => simp [findSub]
    | cons c cs =>
      rw [findSub,
        if_pos (List.isPrefixOf_iff_prefix.mpr (List.prefix_refl (c :: cs)))]
      rfl
  | cons c pre ih =>
    rw [List.cons_append, findSub]
    by_cases hp : List.isPrefixOf pat (c :: (pre ++ pat)) = true
    · rw [if_pos hp]; rfl
    · rw [if_neg hp]
      simpa using ih

/-- A string occurs in any string that ends with it. -/
theorem occursIn_append_right (pre s : String) : occursIn s (pre ++ s) = true := by
  have h := findSub_append_self s.data pre.data
  simpa [occursIn] using h

/-! ## C1: termination of AlternatingGameEndsOnTag.run -/

/-- Invariant of the run loop from any start index within range: the loop
stops with after_game_ends invoked, at the first iteration whose answer is
the end tag, or at the iteration cap when no such iteration exists. -/
theorem runFrom_terminates (end_tag : String) (answers : Nat → String)
    (iterations : Nat) :
    ∀ i, i ≤ iterations →
      ∃ t, runFrom end_tag answers iterations i = some t ∧ i ≤ t ∧
        t ≤ iterations ∧
        (∀ j, i ≤ j → j < t → answers j ≠ end_tag) ∧
        (answers t = end_tag ∨
          (t = iterations ∧ ∀ j, i ≤ j → j ≤ iterations → answers j ≠ end_tag)) := by
  intro i
  induction i using runFrom.induct end_tag answers iterations with
  | case1 x hx hg =>
    intro _
    rw [runFrom, dif_pos hx, dif_pos hg]
    have hcases : answers x = end_tag ∨ x = iterations := by
      simpa [game_over, Bool.or_eq_true, beq_iff_eq] using hg
    refine ⟨x, rfl, le_refl x, hx, fun j h1 h2 => absurd h1 (by omega), ?_⟩
    by_cases ha : answers x = end_tag
    · exact Or.inl ha
    · rcases hcases with h | h
      · exact Or.inl h
      · refine Or.inr ⟨h, fun j hj1 hj2 => ?_⟩
        have : j = x := by omega
        subst this; exact ha
  | case2 x hx hg ih =>
    intro _
    have hne : ¬(answers x = end_tag ∨ x = iterations) := by
      simpa [game_over, Bool.or_eq_true, beq_iff_eq] using hg
    rcases not_or.mp hne with ⟨ha, hxi⟩
    have hx1 : x + 1 ≤ iterations := by omega
    obtain ⟨t, h1, h2, h3, h4, h5⟩ := ih hx1
    rw [runFrom, dif_pos hx, dif_neg hg]
    refine ⟨t, h1, by omega, h3, ?_, ?_⟩
    · intro j hj1 hj2
      rcases Nat.eq_or_lt_of_le hj1 with h | h
      · subst h; exact ha
      · exact h4 j (by omega) hj2
    · rcases h5 with h | ⟨ht, hall⟩
      · exact Or.inl h
      · refine Or.inr ⟨ht, fun j hj1 hj2 => ?_⟩
        rcases Nat.eq_or_lt_of_le hj1 with h | h
        · subst h; exact ha
        · exact hall j (by omega) hj2
  | case3 x hx =>
    intro h
    exact absurd h hx

/-- Claim C1: for every game using AlternatingGameEndsOnTag with at least one
configured iteration, run terminates exactly at the first iteration whose
appended entry carries the end tag in its player-answer field, or else at
exactly the configured maximum iteration count, and in both cases (in
particular the no-agreement case) after_game_ends is invoked, witnessed by
the loop result being some t. -/
theorem C1_run_ends_on_tag_or_at_cap (end_tag : String)
    (answers : Nat → String) (iterations : Nat) (h : 1 ≤ iterations) :
    ∃ t, run end_tag answers iterations = some t ∧ 1 ≤ t ∧ t ≤ iterations ∧
      (∀ j, 1 ≤ j → j < t → answers j ≠ end_tag) ∧
      (answers t = end_tag ∨
        (t = iterations ∧ ∀ j, 1 ≤ j → j ≤ iterations → answers j ≠ end_tag)) :=
  runFrom_terminates end_tag answers iterations 1 h

/-- Witness for C1: with no player ever answering the end tag and eight
configured iterations, the run stops at iteration eight exactly and
after_game_ends runs. -/
theorem C1_witness :
    ∃ t, run "ACCEPT" (fun _ => "NONE") 8 = some t ∧ 1 ≤ t ∧ t ≤ 8 ∧
      (∀ j, 1 ≤ j → j < t → (fun _ : Nat => "NONE") j ≠ "ACCEPT") ∧
      ((fun _ : Nat => "NONE") t = "ACCEPT" ∨
        (t = 8 ∧ ∀ j, 1 ≤ j → j ≤ 8 → (fun _ : Nat => "NONE") j ≠ "ACCEPT")) :=
  C1_run_ends_on_tag_or_at_cap "ACCEPT" (fun _ => "NONE") 8 (by omega)

/-! ## C2: write_game_state failure and success paths -/

/-- Claim C2: if the interface parse raises inside write_game_state then the
raw response is surfaced in the printed error message and the same exception
is propagated, with game_state left unchanged; if the parse succeeds, exactly
one entry is appended and no exception escapes. -/
theorem C2_write_game_state_behaviour
    (parse_fn : String → Except String SimpleGameAgentMessage)
    (current_iteration turn : Nat) (game_state : List GameDatum)
    (response : String) :
    (∀ e, parse_fn response = Except.error e →
      write_game_state parse_fn current_iteration turn game_state response =
        (game_state, some e, ["response : " ++ response]) ∧
      occursIn response ("response : " ++ response) = true) ∧
    (∀ m, parse_fn response = Except.ok m →
      write_game_state parse_fn current_iteration turn game_state response =
        (game_state ++
          [{ current_iteration := current_iteration
             turn := turn
             player_public_answer_string := message_to_other_player m
             player_public_info_dict := m.public
             player_private_info_dict := m.secret
             player_complete_answer := response }], none, [])) := by
  constructor
  · intro e he
    exact ⟨by simp [write_game_state, he], occursIn_append_right _ _⟩
  · intro m hm
    simp [write_game_state, hm]

/-- Witness for C2: a concrete failing parse leaves the state unchanged and
propagates the exception with the raw response printed, and a concrete
successful parse appends exactly one entry. -/
theorem C2_witness :
    (write_game_state (fun _ => Except.error "boom") 1 0 [] "raw" =
      ([], some "boom", ["response : raw"]) ∧
      occursIn "raw" ("response : raw") = true) ∧
    write_game_state
        (fun _ => Except.ok ⟨⟨"m", "NONE", TradeField.sentinel⟩, ⟨⟨[]⟩, "", ""⟩⟩)
        1 0 [] "raw" =
      ([{ current_iteration := 1
          turn := 0
          player_public_answer_string :=
            message_to_other_player ⟨⟨"m", "NONE", TradeField.sentinel⟩, ⟨⟨[]⟩, "", ""⟩⟩
          player_public_info_dict := ⟨"m", "NONE", TradeField.sentinel⟩
          player_private_info_dict := ⟨⟨[]⟩, "", ""⟩
          player_complete_answer := "raw" }], none, []) :=
  ⟨(C2_write_game_state_behaviour (fun _ => Except.error "boom") 1 0 [] "raw").1
      "boom" rfl,
    (C2_write_game_state_behaviour
        (fun _ => Except.ok ⟨⟨"m", "NONE", TradeField.sentinel⟩, ⟨⟨[]⟩, "", ""⟩⟩)
        1 0 [] "raw").2 _ rfl⟩

/-! ## C3: opponent-visible rendering and secret fields -/

/-- Counterexample to claim C3 as stated: for the raw response in which the
agent repeats its private reasoning inside the public message field, the
parsed secret reasoning is the non-empty string leak and that very content
occurs as a substring of the text message_to_other_player renders for the
opponent, so the universal substring-non-leakage guarantee is false. -/
theorem C3_counterexample :
    (SimpleGameDefaultParser.parse
        "<reason> leak </reason><message> leak </message>").secret.reasoning =
      "leak" ∧
    occursIn "leak"
      (message_to_other_player
        (SimpleGameDefaultParser.parse
          "<reason> leak </reason><message> leak </message>")) = true := by
  constructor
  · decide
  · decide

/-- Claim C3 (amended): the text returned by message_to_other_player is a
function of the public field group only — any two parsed messages with equal
public fields render identically, so the secret fields never influence the
opponent-visible text; the stronger guarantee that no secret field content
ever occurs as a substring of the rendered text fails when the same content
also appears in a public field. -/
theorem C3_message_function_of_public_only (ms₁ ms₂ : SimpleGameAgentMessage)
    (h : ms₁.public = ms₂.public) :
    message_to_other_player ms₁ = message_to_other_player ms₂ := by
  simp [message_to_other_player, h]

/-- Witness for C3: two messages differing in every secret field but equal on
the public group render identically. -/
theorem C3_witness :
    message_to_other_player
        ⟨⟨"m", "NONE", TradeField.sentinel⟩, ⟨⟨[]⟩, "", "private one"⟩⟩ =
      message_to_other_player
        ⟨⟨"m", "NONE", TradeField.sentinel⟩, ⟨⟨[("X", 3)]⟩, "me", "private two"⟩⟩ :=
  C3_message_function_of_public_only _ _ rfl

/-! ## C5: parse totality and documented defaults -/

/-- Claim C5: parse returns a message for every input string (it is a total
function); a missing or malformed resources tag resolves to the empty
Resources, a missing or unparseable trade resolves to the NONE sentinel
(never to a literal resource named NONE) — in particular a trade tag whose
content is the string NONE — and a missing player answer resolves to NONE. -/
theorem C5_parse_defaults (response : String) :
    (get_tag_contents response PLAYER_ANSWER_TAG = "" →
      (SimpleGameDefaultParser.parse response).public.answer = "NONE") ∧
    (parse_trade response PROPOSED_TRADE_TAG = none →
      (SimpleGameDefaultParser.parse response).public.trade = TradeField.sentinel) ∧
    (get_tag_contents response PROPOSED_TRADE_TAG = "NONE" →
      (SimpleGameDefaultParser.parse response).public.trade = TradeField.sentinel) ∧
    (Resources.from_string (get_tag_contents response RESOURCES_TAG) = none →
      (SimpleGameDefaultParser.parse response).secret.resources = ⟨[]⟩) := by
  refine ⟨fun h => ?_, fun h => ?_, fun h => ?_, fun h => ?_⟩
  · simp [SimpleGameDefaultParser.parse, h]
  · simp [SimpleGameDefaultParser.parse, h]
  · simp [SimpleGameDefaultParser.parse, parse_trade, h]
  · simp [SimpleGameDefaultParser.parse, h]

/-- Witness for C5: the empty response exercises the answer, trade and
resources defaults, and a response whose trade tag contains NONE exercises
the sentinel case. -/
theorem C5_witness :
    (SimpleGameDefaultParser.parse "").public.answer = "NONE" ∧
    (SimpleGameDefaultParser.parse "").public.trade = TradeField.sentinel ∧
    (SimpleGameDefaultParser.parse "").secret.resources = ⟨[]⟩ ∧
    (SimpleGameDefaultParser.parse
        "<newly proposed trade> NONE </newly proposed trade>").public.trade =
      TradeField.sentinel :=
  ⟨(C5_parse_defaults "").1 (by decide),
    (C5_parse_defaults "").2.1 (by decide),
    (C5_parse_defaults "").2.2.2 (by decide),
    (C5_parse_defaults
        "<newly proposed trade> NONE </newly proposed trade>").2.2.1 (by decide)⟩

/-! ## C9: ChatGPTAgent.step -/

/-- Counterexample to claim C9 as stated: for an agent whose name contains
the second-player marker BLUE, step does not append the given observation
verbatim as the user turn — the recorded user content carries an appended
turn-context block — so the conversation differs from the claimed one. -/
theorem C9_counterexample :
    (ChatGPTAgent.step (fun _ => "ok") (fun _ => none)
        ⟨"Player BLUE", [], 0⟩ "hi").1.conversation ≠
      [("user", "hi"), ("assistant", "ok")] := by
  decide

/-- Claim C9 (amended): step appends exactly one user turn and one assistant
turn, invokes the model once on the conversation extended with the user turn,
and returns the model reply verbatim; the recorded user content is exactly
the given observation unless the agent name contains the second-player
marker, in which case the strategic turn-context block is appended to the
observation first. -/
theorem C9_step_appends_and_returns
    (chatModel : List (String × String) → String)
    (findOffer : String → Option Nat) (a : ChatAgentState)
    (observation : String) :
    (ChatGPTAgent.step chatModel findOffer a observation).1.conversation =
      a.conversation ++
        [("user",
            if occursIn AGENT_TWO a.agent_name then
              observation ++ turn_context findOffer (a.turn_count + 1) observation
            else observation),
          ("assistant", (ChatGPTAgent.step chatModel findOffer a observation).2)] ∧
    (ChatGPTAgent.step chatModel findOffer a observation).2 =
      chatModel (a.conversation ++
        [("user",
            if occursIn AGENT_TWO a.agent_name then
              observation ++ turn_context findOffer (a.turn_count + 1) observation
            else observation)]) ∧
    (ChatGPTAgent.step chatModel findOffer a observation).1.turn_count =
      a.turn_count + 1 ∧
    (ChatGPTAgent.step chatModel findOffer a observation).1.agent_name =
      a.agent_name ∧
    (occursIn AGENT_TWO a.agent_name = false →
      (ChatGPTAgent.step chatModel findOffer a observation).1.conversation =
        a.conversation ++
          [("user", observation),
            ("assistant", (ChatGPTAgent.step chatModel findOffer a observation).2)]) := by
  refine ⟨?_, ?_, rfl, rfl, fun hb => ?_⟩
  · simp [ChatGPTAgent.step]
  · simp [ChatGPTAgent.step]
  · simp [ChatGPTAgent.step, hb]

/-- Witness for C9: a first-player agent (name containing RED, not BLUE) has
its observation recorded verbatim and the model reply returned unchanged. -/
theorem C9_witness :
    (ChatGPTAgent.step (fun _ => "ok") (fun _ => none)
        ⟨"Player RED", [], 0⟩ "hi").1.conversation =
      [("user", "hi"), ("assistant", "ok")] := by
  have h :=
    (C9_step_appends_and_returns (fun _ => "ok") (fun _ => none)
        ⟨"Player RED", [], 0⟩ "hi").2.2.2.2 (by decide)
  simpa using h

/-! ## C10: read_iteration_message -/

/-- Counterexample to claim C10 as stated: the entry with an empty public
message, the NONE trade sentinel and the NONE answer sits in range and its
proposed-trade value is truthy (it is not empty), so the claim prescribes a
newline-joined string; the code returns the empty dict because every
observation part is filtered out. -/
theorem C10_counterexample :
    read_iteration_message
        [{ message := "", proposed_trade := DictVal.str "NONE",
           player_answer := "NONE" }] 0 = Observation.emptyDict ∧
    DictVal.truthy (DictVal.str "NONE") = true := by
  decide

/-- In-range behaviour of read_iteration_message, phrased with obsParts. -/
theorem read_iteration_message_in_range (gs : List PublicInfoEntry) (i : Int)
    (h0 : 0 ≤ i) (hlen : i < (gs.length : Int)) :
    read_iteration_message gs i =
      (if (gs.getD i.toNat ⟨"", DictVal.str "", ""⟩).message = "" ∧
          (gs.getD i.toNat ⟨"", DictVal.str "", ""⟩).proposed_trade.truthy = false then
        Observation.emptyDict
      else if obsParts (gs.getD i.toNat ⟨"", DictVal.str "", ""⟩) = [] then
        Observation.emptyDict
      else
        Observation.text
          (String.intercalate "\n"
            (obsParts (gs.getD i.toNat ⟨"", DictVal.str "", ""⟩)))) := by
  have hcond :
      (decide (i < 0) || decide (i ≥ (gs.length : Int))) = false := by
    simp only [Bool.or_eq_false_iff, decide_eq_false_iff_not, not_lt, ge_iff_le,
      not_le]
    exact ⟨h0, hlen⟩
  simp only [read_iteration_message, obsParts, hcond, Bool.false_eq_true,
    if_false, List.isEmpty_iff]

/-- Claim C10 (amended): read_iteration_message returns the empty dict when
the index is out of range (negative or at least the history length), when the
entry's public message and proposed trade are both empty (falsy), and also
when every filtered observation part is empty (message empty, trade rendering
the NONE sentinel, answer empty or NONE); otherwise it returns the
newline-joined string of the filtered parts: the public message, the proposed
trade when truthy and not the NONE sentinel, and the player answer when
non-empty and not NONE. -/
theorem C10_read_iteration_message_cases (game_state : List PublicInfoEntry)
    (iteration : Int) :
    ((iteration < 0 ∨ (game_state.length : Int) ≤ iteration) →
      read_iteration_message game_state iteration = Observation.emptyDict) ∧
    (0 ≤ iteration → iteration < (game_state.length : Int) →
      ((game_state.getD iteration.toNat ⟨"", DictVal.str "", ""⟩).message = "" ∧
          (game_state.getD iteration.toNat
            ⟨"", DictVal.str "", ""⟩).proposed_trade.truthy = false →
        read_iteration_message game_state iteration = Observation.emptyDict) ∧
      (obsParts (game_state.getD iteration.toNat ⟨"", DictVal.str "", ""⟩) = [] →
        read_iteration_message game_state iteration = Observation.emptyDict) ∧
      (¬((game_state.getD iteration.toNat ⟨"", DictVal.str "", ""⟩).message = "" ∧
          (game_state.getD iteration.toNat
            ⟨"", DictVal.str "", ""⟩).proposed_trade.truthy = false) →
        obsParts (game_state.getD iteration.toNat ⟨"", DictVal.str "", ""⟩) ≠ [] →
        read_iteration_message game_state iteration =
          Observation.text
            (String.intercalate "\n"
              (obsParts (game_state.getD iteration.toNat
                ⟨"", DictVal.str "", ""⟩))))) := by
  constructor
  · intro h
    have hcond :
        (decide (iteration < 0) ||
          decide (iteration ≥ (game_state.length : Int))) = true := by
      rcases h with h | h <;> simp [h, ge_iff_le]
    simp [read_iteration_message, hcond]
  · intro h0 hlen
    refine ⟨fun h => ?_, fun h => ?_, fun h1 h2 => ?_⟩
    · rw [read_iteration_message_in_range _ _ h0 hlen, if_pos h]
    · rw [read_iteration_message_in_range _ _ h0 hlen]
      by_cases hd :
          (game_state.getD iteration.toNat ⟨"", DictVal.str "", ""⟩).message = "" ∧
          (game_state.getD iteration.toNat
            ⟨"", DictVal.str "", ""⟩).proposed_trade.truthy = false
      · rw [if_pos hd]
      · rw [if_neg hd, if_pos h]
    · rw [read_iteration_message_in_range _ _ h0 hlen, if_neg h1, if_neg h2]

/-- Witness for C10: an in-range entry with a non-empty message, the NONE
sentinel trade and an ACCEPT answer yields the joined two-part string. -/
theorem C10_witness :
    read_iteration_message
        [{ message := "hi", proposed_trade := DictVal.str "NONE",
           player_answer := "ACCEPT" }] 0 =
      Observation.text "Opponent says: hi\nOpponent's answer: ACCEPT" := by
  have h :=
    ((C10_read_iteration_message_cases
        [{ message := "hi", proposed_trade := DictVal.str "NONE",
           player_answer := "ACCEPT" }] 0).2 (by decide) (by decide)).2.2
      (by decide) (by decide)
  rw [h]
  decide

/-! ## Memory-subsystem helper lemmas -/

/-- The session where-filter agrees with the direct session comparison. -/
theorem filter_session_eq (store : Store) (sid : String) :
    store.items.filter (matchesSession (some sid)) =
      store.items.filter (fun m => m.session_id == sid) := rfl

/-- An empty retrieve_by_session result means the session filter is empty. -/
theorem session_nil_of_isEmpty (store : Store) (sid : String)
    (h : (retrieve_by_session store sid none).isEmpty = true) :
    store.items.filter (fun m => m.session_id == sid) = [] := by
  have hp :=
    List.perm_insertionSort (fun a b : Mem => a.turn_id ≤ b.turn_id)
      (store.items.filter (fun m => m.session_id == sid))
  have hz : retrieve_by_session store sid none =
      List.insertionSort (fun a b : Mem => a.turn_id ≤ b.turn_id)
        (store.items.filter (fun m => m.session_id == sid)) := rfl
  rw [hz] at h
  rw [List.isEmpty_iff.mp h] at hp
  exact hp.nil_eq.symm

/-- With an empty session filter, similarity retrieval in that session is
empty. -/
theorem retrieve_by_similarity_session_nil (store : Store) (sim : Mem → ℚ)
    (k : Nat) (sid : String)
    (hnil : store.items.filter (fun m => m.session_id == sid) = []) :
    retrieve_by_similarity store sim k (some sid) = [] := by
  have hm : store.items.filter (matchesSession (some sid)) = [] := by
    rw [filter_session_eq]; exact hnil
  simp only [retrieve_by_similarity, hm]
  split
  · rfl
  · split
    · rfl
    · simp [List.insertionSort]

/-- With an empty session filter, semantic retrieval is empty. -/
theorem semantic_retrieval_session_nil (store : Store) (sim : Mem → ℚ)
    (sid : String) (k : Nat)
    (hnil : store.items.filter (fun m => m.session_id == sid) = []) :
    semantic_retrieval store sim sid k = [] :=
  retrieve_by_similarity_session_nil store sim k sid hnil

/-- With an empty session filter, recency retrieval is empty. -/
theorem recency_retrieval_session_nil (store : Store) (sid : String) (k : Nat)
    (hnil : store.items.filter (fun m => m.session_id == sid) = []) :
    recency_retrieval store sid k = [] := by
  have hm : store.items.filter (matchesSession (some sid)) = [] := by
    rw [filter_session_eq]; exact hnil
  simp [recency_retrieval, retrieve_recent, hm, List.insertionSort]

/-- Deduplication only keeps elements of the input list. -/
theorem mem_dedupById {m : Mem} : ∀ {l : List Mem}, m ∈ dedupById l → m ∈ l := by
  intro l
  induction l using dedupById.induct with
  | case1 => intro h; simp [dedupById] at h
  | case2 a rest ih =>
    intro h
    rw [dedupById] at h
    rcases List.mem_cons.mp h with h | h
    · exact h ▸ List.mem_cons_self _ _
    · exact List.mem_cons_of_mem _ (List.mem_of_mem_filter (ih h))

/-- Semantic retrieval only returns stored memories of the session. -/
theorem mem_semantic_retrieval {store : Store} {sim : Mem → ℚ} {sid : String}
    {k : Nat} {m : Mem} (h : m ∈ semantic_retrieval store sim sid k) :
    m ∈ store.items ∧ m.session_id = sid := by
  simp only [semantic_retrieval, retrieve_by_similarity] at h
  split at h
  · simp at h
  · split at h
    · simp at h
    · have h1 := List.take_subset _ _ h
      have h2 := (List.mem_insertionSort _).mp h1
      have h3 := List.mem_filter.mp h2
      exact ⟨h3.1, by simpa [matchesSession] using h3.2⟩

/-- Recency retrieval only returns stored memories of the session. -/
theorem mem_recency_retrieval {store : Store} {sid : String} {k : Nat}
    {m : Mem} (h : m ∈ recency_retrieval store sid k) :
    m ∈ store.items ∧ m.session_id = sid := by
  simp only [recency_retrieval, retrieve_recent] at h
  have h1 := List.take_subset _ _ h
  have h2 := (List.mem_insertionSort _).mp h1
  have h3 := List.mem_filter.mp h2
  exact ⟨h3.1, by simpa [matchesSession] using h3.2⟩

/-- With an empty session filter, hybrid retrieval is empty. -/
theorem hybrid_retrieval_session_nil (store : Store) (sim : Mem → ℚ)
    (sid : String) (k : Nat) (rw sw : ℚ)
    (hnil : store.items.filter (fun m => m.session_id == sid) = []) :
    hybrid_retrieval store sim sid k rw sw = [] := by
  simp [hybrid_retrieval, retrieve_by_session, hnil, List.insertionSort]

/-- With an empty session filter, critical retrieval is empty. -/
theorem critical_retrieval_session_nil (store : Store) (sid : String)
    (k : Nat)
    (hnil : store.items.filter (fun m => m.session_id == sid) = []) :
    critical_retrieval store sid k = [] := by
  simp [critical_retrieval, retrieve_by_session, hnil, List.insertionSort]

/-- Similarity retrieval returns at most k memories. -/
theorem length_retrieve_by_similarity_le (store : Store) (sim : Mem → ℚ)
    (k : Nat) (f : Option String) :
    (retrieve_by_similarity store sim k f).length ≤ k := by
  simp only [retrieve_by_similarity]
  split
  · simp
  · split
    · simp
    · exact le_trans (List.length_take_le _ _) (Nat.min_le_left _ _)

/-- Recency retrieval returns at most n memories. -/
theorem length_retrieve_recent_le (store : Store) (n : Nat)
    (f : Option String) : (retrieve_recent store n f).length ≤ n :=
  List.length_take_le _ _

/-- Session retrieval with a limit returns at most that many memories. -/
theorem length_retrieve_by_session_le (store : Store) (sid : String)
    (limit : Nat) :
    (retrieve_by_session store sid (some limit)).length ≤ limit := by
  simp only [retrieve_by_session]
  rw [List.length_insertionSort]
  exact List.length_take_le _ _

/-- Type retrieval with a limit returns at most that many memories. -/
theorem length_retrieve_by_type_le (store : Store) (mt : String)
    (f : Option String) (limit : Nat) :
    (retrieve_by_type store mt f (some limit)).length ≤ limit :=
  List.length_take_le _ _

/-- Hybrid retrieval returns at most k memories. -/
theorem length_hybrid_retrieval_le (store : Store) (sim : Mem → ℚ)
    (sid : String) (k : Nat) (rw sw : ℚ) :
    (hybrid_retrieval store sim sid k rw sw).length ≤ k := by
  simp only [hybrid_retrieval]
  split_ifs
  · simp
  · simp
  · simp
  · simp only [List.length_map]
    exact List.length_take_le k _

/-- Critical retrieval returns at most k memories. -/
theorem length_critical_retrieval_le (store : Store) (sid : String)
    (k : Nat) : (critical_retrieval store sid k).length ≤ k := by
  simp only [critical_retrieval]
  split_ifs
  · simp
  · exact List.length_take_le _ _
  · exact List.length_take_le _ _

/-! ## C6: degenerate retrieval behaviour and result bounds -/

/-- Claim C6: every retrieval strategy returns an empty list (rather than
raising) on an empty store and on an empty session; every retrieval operation
returns at most the requested count; and get_stats on an empty session
reports zero total memories. -/
theorem C6_empty_safe_and_bounded (store : Store) (sim : Mem → ℚ)
    (sid mt : String) (k n limit : Nat) (rw sw : ℚ) :
    (store.items = [] →
      retrieve_by_similarity store sim k (some sid) = [] ∧
      semantic_retrieval store sim sid k = [] ∧
      recency_retrieval store sid k = [] ∧
      hybrid_retrieval store sim sid k rw sw = [] ∧
      critical_retrieval store sid k = []) ∧
    (store.items.filter (fun m => m.session_id == sid) = [] →
      semantic_retrieval store sim sid k = [] ∧
      recency_retrieval store sid k = [] ∧
      hybrid_retrieval store sim sid k rw sw = [] ∧
      critical_retrieval store sid k = [] ∧
      (get_stats store sid).total_memories = 0) ∧
    ((retrieve_by_similarity store sim k (some sid)).length ≤ k ∧
      (semantic_retrieval store sim sid k).length ≤ k ∧
      (recency_retrieval store sid k).length ≤ k ∧
      (retrieve_recent store n none).length ≤ n ∧
      (retrieve_by_session store sid (some limit)).length ≤ limit ∧
      (retrieve_by_type store mt (some sid) (some limit)).length ≤ limit ∧
      (hybrid_retrieval store sim sid k rw sw).length ≤ k ∧
      (critical_retrieval store sid k).length ≤ k) := by
  refine ⟨fun hempty => ?_, fun hnil => ?_, ?_⟩
  · have hnil : store.items.filter (fun m => m.session_id == sid) = [] := by
      rw [hempty]; rfl
    exact ⟨retrieve_by_similarity_session_nil store sim k sid hnil,
      semantic_retrieval_session_nil store sim sid k hnil,
      recency_retrieval_session_nil store sid k hnil,
      hybrid_retrieval_session_nil store sim sid k rw sw hnil,
      critical_retrieval_session_nil store sid k hnil⟩
  · exact ⟨semantic_retrieval_session_nil store sim sid k hnil,
      recency_retrieval_session_nil store sid k hnil,
      hybrid_retrieval_session_nil store sim sid k rw sw hnil,
      critical_retrieval_session_nil store sid k hnil,
      by simp [get_stats, hnil]⟩
  · exact ⟨length_retrieve_by_similarity_le store sim k (some sid),
      length_retrieve_by_similarity_le store sim k (some sid),
      length_retrieve_recent_le store k (some sid),
      length_retrieve_recent_le store n none,
      length_retrieve_by_session_le store sid limit,
      length_retrieve_by_type_le store mt (some sid) limit,
      length_hybrid_retrieval_le store sim sid k rw sw,
      length_critical_retrieval_le store sid k⟩

/-- Witness for C6: every strategy returns the empty list on the empty store
and stats report zero memories. -/
theorem C6_witness :
    retrieve_by_similarity ⟨[]⟩ (fun _ => 0) 5 (some "s") = [] ∧
    semantic_retrieval ⟨[]⟩ (fun _ => 0) "s" 5 = [] ∧
    recency_retrieval ⟨[]⟩ "s" 5 = [] ∧
    hybrid_retrieval ⟨[]⟩ (fun _ => 0) "s" 5 (3 / 10) (7 / 10) = [] ∧
    critical_retrieval ⟨[]⟩ "s" 5 = [] ∧
    (get_stats ⟨[]⟩ "s").total_memories = 0 := by
  obtain ⟨h1, h2, -⟩ :=
    C6_empty_safe_and_bounded ⟨[]⟩ (fun _ => 0) "s" "offer" 5 3 4 (3 / 10) (7 / 10)
  have ha := h1 rfl
  have hb := h2 rfl
  exact ⟨ha.1, ha.2.1, ha.2.2.1, ha.2.2.2.1, ha.2.2.2.2, hb.2.2.2.2⟩

/-! ## C8: critical retrieval -/

/-- Counterexample to claim C8 as stated: with one critical entry, one
non-critical entry of importance one half and k two, the session holds two
entries but critical retrieval returns only the critical one — the backfill
never drew on the non-critical entry because its importance does not exceed
0.7, so the session is not exhausted yet fewer than k entries are returned. -/
theorem C8_counterexample :
    critical_retrieval
        ⟨[⟨1, "s", 1, 1, "p", "offer", 9 / 10, true⟩,
          ⟨2, "s", 2, 2, "p", "offer", 1 / 2, false⟩]⟩ "s" 2 =
      [⟨1, "s", 1, 1, "p", "offer", 9 / 10, true⟩] ∧
    (retrieve_by_session
        ⟨[⟨1, "s", 1, 1, "p", "offer", 9 / 10, true⟩,
          ⟨2, "s", 2, 2, "p", "offer", 1 / 2, false⟩]⟩ "s" none).length = 2 := by
  with_unfolding_all decide

/-- Claim C8 (amended): critical retrieval returns the entries flagged
critical first, and whenever fewer than k critical entries exist it backfills
with the highest-importance non-critical entries among those with importance
score above 0.7, sorted by importance descending, until k entries are
returned or those candidates are exhausted. -/
theorem C8_critical_first_high_importance_backfill (store : Store)
    (sid : String) (k : Nat) :
    critical_retrieval store sid k = critical_retrieval_amended store sid k := by
  simp only [critical_retrieval, critical_retrieval_amended]
  by_cases he : (retrieve_by_session store sid none).isEmpty = true
  · have hnil : retrieve_by_session store sid none = [] := List.isEmpty_iff.mp he
    simp [he, hnil, List.insertionSort]
  · rw [if_neg he]
    by_cases hlt :
        (List.filter (fun m => m.is_critical)
          (retrieve_by_session store sid none)).length < k
    · rw [if_pos hlt, if_pos hlt]
    · rw [if_neg hlt, if_neg hlt, List.append_nil]

/-! ## C4: hybrid retrieval matches its specification -/

/-- The per-candidate score computed by the code equals the score formula of
the claim: when the semantic result list is empty both the floored
denominator and the rational convention for division by zero give a semantic
score of one (the rank of every candidate is then zero), and otherwise the
floor is the identity; the remaining differences are commutativity and the
boolean-to-number convention for the critical flag. -/
theorem hybridScore_eq_claim (sr : List Mem) (M : Nat) (rw sw : ℚ) (m : Mem) :
    hybridScore sr M rw sw m =
      rw * ((m.turn_id : ℚ) / (M : ℚ)) +
      sw * (1 - ((sr.findIdx (fun x => x.memory_id == m.memory_id) : ℚ) /
        (sr.length : ℚ))) +
      (1 / 10) * m.importance_score +
      (1 / 10) * (if m.is_critical then 1 else 0) := by
  cases sr with
  | nil =>
    simp only [hybridScore, List.findIdx_nil, List.length_nil, Nat.cast_zero]
    cases hc : m.is_critical <;> simp [hc] <;> ring
  | cons a l =>
    have hmax : max (a :: l).length 1 = (a :: l).length := by
      simp only [List.length_cons]
      omega
    simp only [hybridScore, hmax]
    cases hc : m.is_critical <;> simp [hc] <;> ring

/-- Claim C4: hybrid retrieval gathers up to 3k (capped at 50) candidates
from both semantic and recency retrieval, deduplicates them by memory id,
scores each candidate with the claimed weighted formula (max_turn_id floored
to 1) and returns the top k candidates by score in descending order: the
implementation agrees with the claimed algorithm on every input. -/
theorem C4_hybrid_matches_claim (store : Store) (sim : Mem → ℚ)
    (sid : String) (k : Nat) (rw sw : ℚ) :
    hybrid_retrieval store sim sid k rw sw =
      hybrid_retrieval_claim store sim sid k rw sw := by
  simp only [hybrid_retrieval, hybrid_retrieval_claim, hybridScore_eq_claim]
  split_ifs with h1 h2 h3
  · have hnil := session_nil_of_isEmpty store sid h1
    have hs := semantic_retrieval_session_nil store sim sid (min (k * 3) 50) hnil
    have hr := recency_retrieval_session_nil store sid (min (k * 3) 50) hnil
    simp [hs, hr, dedupById, List.insertionSort]
  · simp only [Bool.and_eq_true, List.isEmpty_iff] at h2
    obtain ⟨hs, hr⟩ := h2
    simp [hs, hr, dedupById, List.insertionSort]
  · have hc := List.isEmpty_iff.mp h3
    simp [hc, List.insertionSort]
  · rfl

/-! ## C7: hybrid retrieval with pure recency weights -/

/-- Counterexample to claim C7 as stated: with recency weight one and
similarity weight zero, the importance and critical boosts still apply, so an
older critical high-importance memory (turn 9, importance 1, critical)
outscores the newest memory (turn 10, importance 0, not critical) and the
result is not in descending turn-id order. -/
theorem C7_counterexample :
    ¬ List.Pairwise (fun a b : Mem => b.turn_id ≤ a.turn_id)
      (hybrid_retrieval
        ⟨[⟨1, "s", 9, 9, "p", "offer", 1, true⟩,
          ⟨2, "s", 10, 10, "p", "offer", 0, false⟩]⟩
        (fun _ => 0) "s" 2 1 0) := by
  with_unfolding_all decide

/-- With recency weight one and similarity weight zero, the scored and sorted
prefix of any candidate list of uniform importance and critical flag is in
descending turn-id order: the score reduces to turn_id over max_turn plus a
constant. -/
theorem pairwise_turn_desc_of_uniform (S C : List Mem) (M : Nat) (hM : 1 ≤ M)
    (k : Nat) (imp : ℚ) (crit : Bool)
    (hC : ∀ m ∈ C, m.importance_score = imp ∧ m.is_critical = crit) :
    List.Pairwise (fun a b : Mem => b.turn_id ≤ a.turn_id)
      ((List.take k (List.insertionSort (fun a b : ℚ × Mem => b.1 ≤ a.1)
        (C.map (fun m => (hybridScore S M 1 0 m, m))))).map (fun p => p.2)) := by
  haveI : IsTotal (ℚ × Mem) (fun a b : ℚ × Mem => b.1 ≤ a.1) :=
    ⟨fun a b => le_total b.1 a.1⟩
  haveI : IsTrans (ℚ × Mem) (fun a b : ℚ × Mem => b.1 ≤ a.1) :=
    ⟨fun a b c hab hbc => le_trans hbc hab⟩
  have hsorted :=
    List.sorted_insertionSort (fun a b : ℚ × Mem => b.1 ≤ a.1)
      (C.map (fun m => (hybridScore S M 1 0 m, m)))
  have htake :
      List.Pairwise (fun a b : ℚ × Mem => b.1 ≤ a.1)
        (List.take k (List.insertionSort (fun a b : ℚ × Mem => b.1 ≤ a.1)
          (C.map (fun m => (hybridScore S M 1 0 m, m))))) :=
    List.Pairwise.sublist (List.take_sublist _ _) hsorted
  have hmem : ∀ p : ℚ × Mem,
      p ∈ List.take k (List.insertionSort (fun a b : ℚ × Mem => b.1 ≤ a.1)
        (C.map (fun m => (hybridScore S M 1 0 m, m)))) →
      p.1 = hybridScore S M 1 0 p.2 ∧ p.2 ∈ C := by
    intro p hp
    have hp1 := (List.mem_insertionSort _).mp (List.take_subset _ _ hp)
    obtain ⟨m, hm, heq⟩ := List.mem_map.mp hp1
    cases heq
    exact ⟨rfl, hm⟩
  rw [List.pairwise_map]
  refine htake.imp_of_mem ?_
  intro a b ha hb hab
  obtain ⟨hsa, hma⟩ := hmem a ha
  obtain ⟨hsb, hmb⟩ := hmem b hb
  obtain ⟨hia, hca⟩ := hC a.2 hma
  obtain ⟨hib, hcb⟩ := hC b.2 hmb
  rw [hsa, hsb] at hab
  have hscore : ∀ m : Mem, m.importance_score = imp → m.is_critical = crit →
      hybridScore S M 1 0 m =
        (m.turn_id : ℚ) / (M : ℚ) +
          (imp * (1 / 10) + (if crit then (1 : ℚ) / 10 else 0)) := by
    intro m h1 h2
    simp only [hybridScore, h1, h2]
    ring
  rw [hscore a.2 hia hca, hscore b.2 hib hcb] at hab
  have hMpos : (0 : ℚ) < (M : ℚ) := by
    exact_mod_cast Nat.lt_of_lt_of_le Nat.zero_lt_one hM
  have h2 := (add_le_add_iff_right _).mp hab
  have h3 := (div_le_div_iff_of_pos_right hMpos).mp h2
  exact_mod_cast h3

/-- Claim C7 (amended): hybrid retrieval called with recency_weight one and
similarity_weight zero returns its results in descending turn-id order
provided the session's entries carry a uniform importance score and a uniform
critical flag (otherwise the importance and critical boosts can reorder,
see the counterexample). -/
theorem C7_hybrid_recency_order_of_uniform (store : Store) (sim : Mem → ℚ)
    (sid : String) (k : Nat) (imp : ℚ) (crit : Bool)
    (h : ∀ m ∈ store.items, m.session_id = sid →
      m.importance_score = imp ∧ m.is_critical = crit) :
    List.Pairwise (fun a b : Mem => b.turn_id ≤ a.turn_id)
      (hybrid_retrieval store sim sid k 1 0) := by
  simp only [hybrid_retrieval]
  split_ifs with h1 h2 h3
  · exact List.Pairwise.nil
  · exact List.Pairwise.nil
  · exact List.Pairwise.nil
  · refine pairwise_turn_desc_of_uniform _ _ _ (le_max_right _ 1) _ imp crit ?_
    intro m hm
    rcases List.mem_append.mp (mem_dedupById hm) with hmem | hmem
    · obtain ⟨hi, hs⟩ := mem_semantic_retrieval hmem
      exact h m hi hs
    · obtain ⟨hi, hs⟩ := mem_recency_retrieval hmem
      exact h m hi hs

/-- Witness for C7: on a session of two uniform-importance non-critical
memories, hybrid retrieval with recency weight one returns descending
turn ids. -/
theorem C7_witness :
    List.Pairwise (fun a b : Mem => b.turn_id ≤ a.turn_id)
      (hybrid_retrieval
        ⟨[⟨1, "s", 1, 1, "p", "offer", 1 / 2, false⟩,
          ⟨2, "s", 2, 2, "p", "offer", 1 / 2, false⟩]⟩
        (fun _ => 0) "s" 2 1 0) :=
  C7_hybrid_recency_order_of_uniform
    ⟨[⟨1, "s", 1, 1, "p", "offer", 1 / 2, false⟩,
      ⟨2, "s", 2, 2, "p", "offer", 1 / 2, false⟩]⟩
    (fun _ => 0) "s" 2 (1 / 2) false (by with_unfolding_all decide)

end DiplomacyArena
